import Mathlib

/-!
Shallow embedding of the two command-line scripts of the incident-management
repository: `scripts/csv_to_excel.py` (convert a CSV file to an Excel workbook)
and `scripts/test_excel.py` (open a workbook and print a structural summary).
Both scripts are thin wrappers around the pandas tabular-data library, so the
embedding models the filesystem, the pandas frame, and the library calls the
scripts make (`pd.read_csv`, `DataFrame.to_excel`, `pd.read_excel`), then the
scripts themselves, and proves the specified behavioural properties.
-/

namespace IMS

/-- Decimal digits of `n`, least significant first; the first argument is
recursion fuel, sufficient whenever `n ≤ fuel`. -/
def decDigitsF : Nat → Nat → List Nat
  | _, 0 => []
  | 0, _ + 1 => []
  | f + 1, n + 1 => (n + 1) % 10 :: decDigitsF f ((n + 1) / 10)

/-- Value of a little-endian decimal digit list. -/
def decVal : List Nat → Nat
  | [] => 0
  | d :: ds => d + 10 * decVal ds

/-- Decimal rendering of a natural number, as Python's `str` builtin and
pandas' numeric suffixes produce it. -/
def decRepr (n : Nat) : String :=
  if n = 0 then "0" else ((decDigitsF n n).map Nat.digitChar).reverse.asString

theorem decVal_decDigitsF : ∀ f n, n ≤ f → decVal (decDigitsF f n) = n := by
  intro f
  induction f with
  | zero =>
    intro n hn
    have h0 : n = 0 := Nat.le_zero.mp hn
    subst h0
    rfl
  | succ f ih =>
    intro n hn
    match n with
    | 0 => rfl
    | m + 1 =>
      have hdiv : (m + 1) / 10 < m + 1 := Nat.div_lt_self (Nat.succ_pos m) (by norm_num)
      have h2 : (m + 1) / 10 ≤ f := by omega
      simp only [decDigitsF, decVal, ih _ h2]
      exact Nat.mod_add_div (m + 1) 10

theorem decDigitsF_lt_ten : ∀ f n d, d ∈ decDigitsF f n → d < 10 := by
  intro f
  induction f with
  | zero =>
    intro n d hd
    match n with
    | 0 => simp [decDigitsF] at hd
    | _ + 1 => simp [decDigitsF] at hd
  | succ f ih =>
    intro n d hd
    match n with
    | 0 => simp [decDigitsF] at hd
    | m + 1 =>
      simp only [decDigitsF, List.mem_cons] at hd
      rcases hd with h | h
      · subst h
        exact Nat.mod_lt _ (by norm_num)
      · exact ih _ _ h

theorem digitChar_inj_lt : ∀ a, a < 10 → ∀ b, b < 10 → Nat.digitChar a = Nat.digitChar b → a = b := by
  decide

theorem map_digitChar_inj : ∀ l₁ l₂ : List Nat, (∀ d ∈ l₁, d < 10) → (∀ d ∈ l₂, d < 10) →
    l₁.map Nat.digitChar = l₂.map Nat.digitChar → l₁ = l₂ := by
  intro l₁
  induction l₁ with
  | nil =>
    intro l₂ _ _ h
    cases l₂ with
    | nil => rfl
    | cons b bs => simp at h
  | cons a as ih =>
    intro l₂ h₁ h₂ h
    cases l₂ with
    | nil => simp at h
    | cons b bs =>
      simp only [List.map_cons, List.cons.injEq] at h
      have ha : a < 10 := h₁ a (by simp)
      have hb : b < 10 := h₂ b (by simp)
      have hab : a = b := digitChar_inj_lt a ha b hb h.1
      have htail : as = bs :=
        ih bs (fun d hd => h₁ d (by simp [hd])) (fun d hd => h₂ d (by simp [hd])) h.2
      rw [hab, htail]

theorem string_data_inj {s t : String} (h : s.data = t.data) : s = t := by
  cases s
  cases t
  exact congrArg String.mk h

theorem decRepr_of_ne_zero {n : Nat} (h : n ≠ 0) :
    decRepr n = ((decDigitsF n n).map Nat.digitChar).reverse.asString := by
  simp [decRepr, h]

theorem decRepr_ne_zero_digits {n : Nat} (h : n ≠ 0)
    (hd : (decDigitsF n n).map Nat.digitChar = ['0']) : False := by
  have hlist : decDigitsF n n = [0] := by
    cases hds : decDigitsF n n with
    | nil => rw [hds] at hd; simp at hd
    | cons d ds =>
      rw [hds] at hd
      simp only [List.map_cons, List.cons.injEq, List.map_eq_nil_iff] at hd
      have hd10 : d < 10 := decDigitsF_lt_ten n n d (by rw [hds]; simp)
      have hd0 : d = 0 := digitChar_inj_lt d hd10 0 (by norm_num) hd.1
      rw [hd.2, hd0]
  have := decVal_decDigitsF n n le_rfl
  rw [hlist] at this
  simp [decVal] at this
  exact h this.symm

theorem decRepr_injective : Function.Injective decRepr := by
  intro a b h
  by_cases ha : a = 0 <;> by_cases hb : b = 0
  · rw [ha, hb]
  · exfalso
    rw [ha] at h
    have hdata := congrArg String.data h
    have hde : ((decDigitsF b b).map Nat.digitChar).reverse = ['0'] := by
      rw [decRepr_of_ne_zero hb] at hdata
      exact hdata.symm
    have : (decDigitsF b b).map Nat.digitChar = ['0'] := by
      have := congrArg List.reverse hde
      simpa using this
    exact decRepr_ne_zero_digits hb this
  · exfalso
    rw [hb] at h
    have hdata := congrArg String.data h
    have hde : ((decDigitsF a a).map Nat.digitChar).reverse = ['0'] := by
      rw [decRepr_of_ne_zero ha] at hdata
      exact hdata
    have : (decDigitsF a a).map Nat.digitChar = ['0'] := by
      have := congrArg List.reverse hde
      simpa using this
    exact decRepr_ne_zero_digits ha this
  · have hdata := congrArg String.data h
    rw [decRepr_of_ne_zero ha, decRepr_of_ne_zero hb] at hdata
    have hrev : ((decDigitsF a a).map Nat.digitChar).reverse =
        ((decDigitsF b b).map Nat.digitChar).reverse := hdata
    have hmap : (decDigitsF a a).map Nat.digitChar = (decDigitsF b b).map Nat.digitChar := by
      have := congrArg List.reverse hrev
      simpa using this
    have hdig : decDigitsF a a = decDigitsF b b :=
      map_digitChar_inj _ _ (fun d hd => decDigitsF_lt_ten a a d hd)
        (fun d hd => decDigitsF_lt_ten b b d hd) hmap
    have hva := decVal_decDigitsF a a le_rfl
    have hvb := decVal_decDigitsF b b le_rfl
    rw [hdig] at hva
    rw [hvb] at hva
    exact hva.symm

/-- Rename candidate `name.k` used by pandas' duplicate-column mangling. -/
def candName (n : String) (k : Nat) : String := n ++ "." ++ decRepr k

theorem candName_injective (n : String) : Function.Injective (candName n) := by
  intro k₁ k₂ h
  apply decRepr_injective
  apply string_data_inj
  have hc : (n ++ ".").data ++ (decRepr k₁).data = (n ++ ".").data ++ (decRepr k₂).data := by
    have hd := congrArg String.data h
    simpa only [candName, String.data_append] using hd
  exact List.append_cancel_left hc

/-- Search for the smallest suffix index `k' ≥ k` whose rename candidate is not
already a used column name; the first argument is recursion fuel. -/
def freshFrom (seen : List String) (n : String) : Nat → Nat → Nat
  | 0, k => k
  | f + 1, k => if candName n k ∈ seen then freshFrom seen n f (k + 1) else k

/-- Mangled version of one column name against the names already emitted, as
pandas' duplicate-column handling produces it: a repeated name gets the
smallest free numeric suffix (`a , a` becomes `a , a.1`). -/
def dedupName (seen : List String) (n : String) : String :=
  if n ∈ seen then candName n (freshFrom seen n (seen.length + 1) 1) else n

/-- Mangle a whole header: names are processed left to right, each checked
against all names emitted before it. -/
def dedupNames (seen : List String) : List String → List String
  | [] => []
  | n :: rest => dedupName seen n :: dedupNames (dedupName seen n :: seen) rest

theorem freshFrom_not_mem (seen : List String) (n : String) :
    ∀ f k, ((List.range' k f).filter (fun j => decide (candName n j ∈ seen))).length < f →
      candName n (freshFrom seen n f k) ∉ seen := by
  intro f
  induction f with
  | zero =>
    intro k h
    simp at h
  | succ f ih =>
    intro k h
    by_cases hk : candName n k ∈ seen
    · simp only [freshFrom, if_pos hk]
      apply ih
      rw [List.range'_succ, List.filter_cons, if_pos (decide_eq_true hk),
        List.length_cons] at h
      omega
    · simp only [freshFrom, if_neg hk]
      exact hk

theorem filter_cand_length_le (seen : List String) (n : String) (k m : Nat) :
    ((List.range' k m).filter (fun j => decide (candName n j ∈ seen))).length ≤ seen.length := by
  have hnd : ((List.range' k m).filter (fun j => decide (candName n j ∈ seen))).Nodup :=
    (List.nodup_range' ..).filter _
  have hndm := hnd.map (candName_injective n)
  have hsub : ((List.range' k m).filter (fun j => decide (candName n j ∈ seen))).map (candName n)
      ⊆ seen := by
    intro x hx
    rcases List.mem_map.mp hx with ⟨j, hj, rfl⟩
    have hp := List.of_mem_filter hj
    exact of_decide_eq_true hp
  have hle := (hndm.subperm hsub).length_le
  simpa using hle

theorem dedupName_not_mem (seen : List String) (n : String) : dedupName seen n ∉ seen := by
  by_cases h : n ∈ seen
  · rw [dedupName, if_pos h]
    apply freshFrom_not_mem
    have := filter_cand_length_le seen n 1 (seen.length + 1)
    omega
  · rw [dedupName, if_neg h]
    exact h

theorem dedupNames_fresh_and_nodup : ∀ (l seen : List String),
    (∀ x ∈ dedupNames seen l, x ∉ seen) ∧ (dedupNames seen l).Nodup := by
  intro l
  induction l with
  | nil =>
    intro seen
    exact ⟨by simp [dedupNames], by simp [dedupNames]⟩
  | cons n rest ih =>
    intro seen
    constructor
    · intro x hx
      simp only [dedupNames, List.mem_cons] at hx
      rcases hx with h | h
      · rw [h]
        exact dedupName_not_mem seen n
      · have := (ih (dedupName seen n :: seen)).1 x h
        intro hmem
        exact this (by simp [hmem])
    · simp only [dedupNames, List.nodup_cons]
      constructor
      · intro hmem
        have := (ih (dedupName seen n :: seen)).1 _ hmem
        simp at this
      · exact (ih (dedupName seen n :: seen)).2

theorem dedupNames_nodup (seen l : List String) : (dedupNames seen l).Nodup :=
  (dedupNames_fresh_and_nodup l seen).2

theorem dedupNames_eq_self : ∀ (l seen : List String), l.Nodup → (∀ x ∈ l, x ∉ seen) →
    dedupNames seen l = l := by
  intro l
  induction l with
  | nil => intro seen _ _; rfl
  | cons n rest ih =>
    intro seen hnd hfresh
    have hn : n ∉ seen := hfresh n (by simp)
    have hname : dedupName seen n = n := by rw [dedupName, if_neg hn]
    simp only [dedupNames, hname, List.cons.injEq, true_and]
    apply ih (n :: seen) (List.Nodup.of_cons hnd)
    intro x hx
    simp only [List.mem_cons, not_or]
    exact ⟨fun hxn => (List.nodup_cons.mp hnd).1 (hxn ▸ hx), hfresh x (by simp [hx])⟩

theorem dedupNames_length : ∀ (l seen : List String), (dedupNames seen l).length = l.length := by
  intro l
  induction l with
  | nil => intro seen; rfl
  | cons n rest ih =>
    intro seen
    simp only [dedupNames, List.length_cons, ih]

/-- Split a character list at every occurrence of the separator; `acc` holds
the characters of the current field in reverse. -/
def splitChAux (sep : Char) : List Char → List Char → List String
  | [], acc => [acc.reverse.asString]
  | c :: cs, acc =>
    if c = sep then acc.reverse.asString :: splitChAux sep cs []
    else splitChAux sep cs (c :: acc)

/-- Split a string at every occurrence of the separator character. -/
def splitCh (sep : Char) (s : String) : List String := splitChAux sep s.data []

/-- Comma split of one CSV record into its fields, as pandas' default parser
reads comma-separated text (this model carries no quoting). -/
def splitFields (s : String) : List String := splitCh ',' s

/-- The logical lines of a text file: split at newlines, dropping blank lines
(pandas' default `skip_blank_lines`, which also absorbs a trailing newline). -/
def csvLines (t : String) : List String := (splitCh '\n' t).filter (fun l => decide (l ≠ ""))

/-- In-memory tabular frame: an ordered list of column names and an ordered
list of rows of string-rendered cells. -/
structure Frame where
  columns : List String
  rows : List (List String)
deriving DecidableEq

/-- Contents of one filesystem entry, as far as the two scripts can tell them
apart: decodable text (e.g. comma-separated values), a spreadsheet workbook
holding one sheet, or content that cannot be decoded or opened at all. -/
inductive FileData where
  | text (contents : String) : FileData
  | xlsx (frame : Frame) : FileData
  | unreadable : FileData
deriving DecidableEq

/-- Filesystem state: contents by path, and which paths accept writes. -/
structure World where
  files : String → Option FileData
  writable : String → Bool

/-- Output of one print statement: a plain message line, or a frame rendered
as a table (what printing a pandas DataFrame shows). -/
inductive OutLine where
  | msg (s : String) : OutLine
  | table (columns : List String) (rows : List (List String)) : OutLine
deriving DecidableEq

/-- Parse one CSV record against the header width, as pandas' default parser
does: more fields than the header has is a tokenizing error, fewer fields are
padded with missing values. -/
def parseRow (width : Nat) (line : String) : Except String (List String) :=
  if width < (splitFields line).length then
    .error ("Error tokenizing data: expected " ++ decRepr width ++ " fields, saw "
      ++ decRepr (splitFields line).length)
  else
    .ok (splitFields line ++ List.replicate (width - (splitFields line).length) "NaN")

/-- Parse all data records, stopping at the first bad record. -/
def parseRows (width : Nat) : List String → Except String (List (List String))
  | [] => .ok []
  | r :: rest =>
    match parseRow width r, parseRows width rest with
    | .ok x, .ok xs => .ok (x :: xs)
    | .error e, _ => .error e
    | .ok _, .error e => .error e

/-- Model of pandas `pd.read_csv` on decoded text, with default options: the
first line is the header (duplicate names mangled), the remaining lines are
the data rows, and a file with no content at all is an error. -/
def read_csv_text (t : String) : Except String Frame :=
  match csvLines t with
  | [] => .error "No columns to parse from file"
  | h :: rs =>
    match parseRows (dedupNames [] (splitFields h)).length rs with
    | .ok rows => .ok ⟨dedupNames [] (splitFields h), rows⟩
    | .error e => .error e

/-- Model of pandas `pd.read_csv(path)`: resolve the path in the filesystem,
then parse the contents as CSV text; a missing, binary, or unreadable entry
raises an error. -/
def read_csv (w : World) (p : String) : Except String Frame :=
  match w.files p with
  | none => .error ("No such file or directory: " ++ p)
  | some (.text t) => read_csv_text t
  | some (.xlsx _) => .error ("invalid start byte while decoding " ++ p)
  | some .unreadable => .error ("Permission denied: " ++ p)

/-- The frame actually serialized when writing with a synthetic row-index
column: pandas prepends the index labels 0, 1, ... under an empty header. -/
def withIndexColumn (df : Frame) : Frame :=
  ⟨"" :: df.columns,
    List.zipWith (fun i r => decRepr i :: r) (List.range df.rows.length) df.rows⟩

/-- Model of pandas `DataFrame.to_excel(path, index)`: fails when the path
rejects writes; otherwise creates or overwrites a single-sheet workbook there,
prepending the synthetic row-index column exactly when `index` is true. -/
def to_excel (w : World) (p : String) (df : Frame) (index : Bool) : Except String World :=
  if w.writable p then
    .ok { w with
      files := fun q =>
        if q = p then some (.xlsx (if index then withIndexColumn df else df)) else w.files q }
  else
    .error ("Permission denied: " ++ p)

/-- Model of pandas `pd.read_excel(path)`: returns the frame of the workbook
stored at the path; a missing, non-workbook, or unreadable entry raises. -/
def read_excel (w : World) (p : String) : Except String Frame :=
  match w.files p with
  | none => .error ("No such file or directory: " ++ p)
  | some (.xlsx f) => .ok f
  | some (.text _) => .error ("Excel file format cannot be determined: " ++ p)
  | some .unreadable => .error ("Permission denied: " ++ p)

/-- The try-block body of `csv_to_excel` in `scripts/csv_to_excel.py`: check
`os.path.exists`, read the CSV, write the workbook with `index=False`, print
the success message.  An `.error` is an exception escaping the try block; an
`.ok` carries the returned flag, the filesystem after the call, and the lines
printed inside the block. -/
def csvToExcelBody (w : World) (csv_file excel_file : String) :
    Except String (Bool × World × List OutLine) :=
  if (w.files csv_file).isNone then
    .ok (false, w, [.msg ("Error: Input file " ++ csv_file ++ " does not exist")])
  else
    match read_csv w csv_file with
    | .error e => .error e
    | .ok df =>
      match to_excel w excel_file df false with
      | .error e => .error e
      | .ok w' =>
        .ok (true, w', [.msg ("Successfully converted " ++ csv_file ++ " to " ++ excel_file)])

/-- The function `csv_to_excel` of `scripts/csv_to_excel.py`: run the body and
catch any exception, printing it and returning `False`. -/
def csv_to_excel (w : World) (csv_file excel_file : String) : Bool × World × List OutLine :=
  match csvToExcelBody w csv_file excel_file with
  | .ok r => r
  | .error e => (false, w, [.msg ("Error converting file: " ++ e)])

/-- The function `test_excel_file` of `scripts/test_excel.py`: read the
workbook inside try/except; on success print the confirmation, the shape, the
column names one per line, and the first five rows; on failure print the
caught error.  The filesystem is never modified. -/
def test_excel_file (w : World) (file_path : String) : Bool × List OutLine :=
  match read_excel w file_path with
  | .ok df =>
    (true,
      [.msg "File read successfully!",
       .msg ("Shape: (" ++ decRepr df.rows.length ++ ", " ++ decRepr df.columns.length ++ ")"),
       .msg "Columns:"]
      ++ df.columns.map (fun col => .msg ("  - " ++ col))
      ++ [.msg "\nFirst 5 rows:", .table df.columns (df.rows.take 5)])
  | .error e => (false, [.msg ("Error reading file: " ++ e)])

/-- The `__main__` block of `scripts/csv_to_excel.py`, given the arguments
after the program name: wrong argument count prints usage and exits 1;
otherwise the exit code is 0 exactly when `csv_to_excel` returns `True`.
Returns exit code, final filesystem, and printed output. -/
def converterMain (w : World) (args : List String) : Nat × World × List OutLine :=
  match args with
  | [csv_file, excel_file] =>
    let r := csv_to_excel w csv_file excel_file
    (if r.1 then 0 else 1, r.2.1, r.2.2)
  | _ => (1, w, [.msg "Usage: python csv_to_excel.py <input.csv> <output.xlsx>"])

/-- The `__main__` block of `scripts/test_excel.py`, given the arguments after
the program name.  Returns exit code and printed output (the inspector never
writes to the filesystem). -/
def inspectorMain (w : World) (args : List String) : Nat × List OutLine :=
  match args with
  | [file_path] =>
    let r := test_excel_file w file_path
    (if r.1 then 0 else 1, r.2)
  | _ => (1, [.msg "Usage: python test_excel.py <file.xlsx>"])

theorem parseRows_ok_of_width : ∀ (rs : List String) (width : Nat),
    (∀ r ∈ rs, (splitFields r).length = width) →
    parseRows width rs = .ok (rs.map splitFields) := by
  intro rs
  induction rs with
  | nil => intro width _; rfl
  | cons r rest ih =>
    intro width hw
    have hr : (splitFields r).length = width := hw r (by simp)
    have hrow : parseRow width r = .ok (splitFields r) := by
      rw [parseRow, if_neg (by omega), hr, Nat.sub_self]
      simp
    have hrest := ih width (fun x hx => hw x (by simp [hx]))
    simp only [parseRows, hrow, hrest, List.map_cons]

theorem read_csv_text_valid {t hd : String} {rs : List String}
    (hl : csvLines t = hd :: rs) (hnd : (splitFields hd).Nodup)
    (hwidth : ∀ r ∈ rs, (splitFields r).length = (splitFields hd).length) :
    read_csv_text t = .ok ⟨splitFields hd, rs.map splitFields⟩ := by
  have hded : dedupNames [] (splitFields hd) = splitFields hd :=
    dedupNames_eq_self _ _ hnd (by simp)
  unfold read_csv_text
  rw [hl]
  show (match parseRows (dedupNames [] (splitFields hd)).length rs with
    | Except.ok rows => Except.ok (⟨dedupNames [] (splitFields hd), rows⟩ : Frame)
    | Except.error e => Except.error e) = _
  rw [hded, parseRows_ok_of_width rs _ hwidth]

theorem read_csv_text_columns_nodup {t : String} {df : Frame}
    (h : read_csv_text t = .ok df) : df.columns.Nodup := by
  unfold read_csv_text at h
  split at h
  · simp at h
  · split at h
    · injection h with h2
      rw [← h2]
      exact dedupNames_nodup _ _
    · simp at h

theorem read_csv_ok_text {w : World} {p : String} {df : Frame}
    (h : read_csv w p = .ok df) :
    ∃ t, w.files p = some (.text t) ∧ read_csv_text t = .ok df := by
  unfold read_csv at h
  cases hf : w.files p with
  | none => rw [hf] at h; simp at h
  | some d =>
    rw [hf] at h
    cases d with
    | text t => exact ⟨t, rfl, h⟩
    | xlsx f => simp at h
    | unreadable => simp at h

theorem csv_to_excel_ok {w : World} {ip op : String} {df : Frame}
    (hparse : read_csv w ip = .ok df) (hwr : w.writable op = true) :
    csv_to_excel w ip op =
      (true,
       { w with files := fun q => if q = op then some (.xlsx df) else w.files q },
       [.msg ("Successfully converted " ++ ip ++ " to " ++ op)]) := by
  obtain ⟨t, hf, _⟩ := read_csv_ok_text hparse
  have hbody : csvToExcelBody w ip op =
      .ok (true,
        { w with files := fun q => if q = op then some (.xlsx df) else w.files q },
        [.msg ("Successfully converted " ++ ip ++ " to " ++ op)]) := by
    unfold csvToExcelBody
    rw [hf, hparse]
    show (match to_excel w op df false with
      | Except.error e => Except.error e
      | Except.ok w' =>
        Except.ok (true, w', [OutLine.msg ("Successfully converted " ++ ip ++ " to " ++ op)])) = _
    unfold to_excel
    rw [hwr]
    rfl
  unfold csv_to_excel
  rw [hbody]

theorem test_excel_file_ok {w : World} {p : String} {df : Frame}
    (h : read_excel w p = .ok df) :
    test_excel_file w p =
      (true,
        [.msg "File read successfully!",
         .msg ("Shape: (" ++ decRepr df.rows.length ++ ", " ++ decRepr df.columns.length ++ ")"),
         .msg "Columns:"]
        ++ df.columns.map (fun col => .msg ("  - " ++ col))
        ++ [.msg "\nFirst 5 rows:", .table df.columns (df.rows.take 5)]) := by
  unfold test_excel_file
  rw [h]

theorem test_excel_file_error {w : World} {p e : String}
    (h : read_excel w p = .error e) :
    test_excel_file w p = (false, [.msg ("Error reading file: " ++ e)]) := by
  unfold test_excel_file
  rw [h]

/-- Claim C2: for every input path that does not reference an existing file,
the converter returns failure, prints a diagnostic naming the missing path,
leaves the filesystem untouched (so nothing is read and no output file is
created at the output path). -/
theorem c2_missing_input (w : World) (ip op : String) (h : w.files ip = none) :
    csv_to_excel w ip op =
      (false, w, [.msg ("Error: Input file " ++ ip ++ " does not exist")]) ∧
    ((csv_to_excel w ip op).2.1).files op = w.files op := by
  have hc : csv_to_excel w ip op =
      (false, w, [.msg ("Error: Input file " ++ ip ++ " does not exist")]) := by
    unfold csv_to_excel csvToExcelBody
    rw [h]
    rfl
  exact ⟨hc, by rw [hc]⟩

/-- Claim C3: any parse or write failure raised inside the converter's try
block is caught and converted into a `False` return together with a printed
diagnostic carrying the underlying error message; the operation never lets
the exception escape (its result is this triple, not a raised error). -/
theorem c3_catch_all (w : World) (ip op e : String)
    (h : csvToExcelBody w ip op = .error e) :
    csv_to_excel w ip op = (false, w, [.msg ("Error converting file: " ++ e)]) := by
  unfold csv_to_excel
  rw [h]

/-- Claim C5: for every workbook that parses successfully, the inspector
prints, in order, a confirmation message, the shape as (row count, column
count), the ordered column names one per line, and the first five rows (all
rows when fewer than five) rendered as a table, and returns success. -/
theorem c5_inspector_success (w : World) (p : String) (df : Frame)
    (h : read_excel w p = .ok df) :
    test_excel_file w p =
      (true,
        [.msg "File read successfully!",
         .msg ("Shape: (" ++ decRepr df.rows.length ++ ", " ++ decRepr df.columns.length ++ ")"),
         .msg "Columns:"]
        ++ df.columns.map (fun col => .msg ("  - " ++ col))
        ++ [.msg "\nFirst 5 rows:", .table df.columns (df.rows.take 5)]) :=
  test_excel_file_ok h

/-- Claim C6: for every path whose open or parse step fails, the inspector
catches the failure, prints only the diagnostic with the underlying error
message (no confirmation, shape, column list, or rows), returns failure, and
the command line exits with code 1. -/
theorem c6_inspector_failure (w : World) (p e : String)
    (h : read_excel w p = .error e) :
    test_excel_file w p = (false, [.msg ("Error reading file: " ++ e)]) ∧
    inspectorMain w [p] = (1, [.msg ("Error reading file: " ++ e)]) := by
  have h1 := test_excel_file_error h
  refine ⟨h1, ?_⟩
  simp [inspectorMain, h1]

/-- Claim C9: for every existing input path whose CSV parse fails, the
converter returns failure with the parse diagnostic and the filesystem is
unchanged, so nothing is created or overwritten at the output path: the
write is reached only after a successful parse. -/
theorem c9_no_write_on_parse_failure (w : World) (ip op e : String) (d : FileData)
    (hf : w.files ip = some d) (hparse : read_csv w ip = .error e) :
    csv_to_excel w ip op = (false, w, [.msg ("Error converting file: " ++ e)]) ∧
    ((csv_to_excel w ip op).2.1).files op = w.files op := by
  have hc : csv_to_excel w ip op = (false, w, [.msg ("Error converting file: " ++ e)]) := by
    unfold csv_to_excel csvToExcelBody
    rw [hf, hparse]
    rfl
  exact ⟨hc, by rw [hc]⟩

/-- Claim C1: for every valid CSV file at the input path (a header line whose
field names are distinct, followed by N data lines of the header's width),
converting and then inspecting the produced workbook succeeds, the inspector
reports shape (N, column_count) matching the source, and the printed
column-name list equals the CSV header in the same order. -/
theorem c1_convert_then_inspect (w : World) (ip op t hd : String) (rs : List String)
    (hf : w.files ip = some (.text t))
    (hl : csvLines t = hd :: rs)
    (hnd : (splitFields hd).Nodup)
    (hwidth : ∀ r ∈ rs, (splitFields r).length = (splitFields hd).length)
    (hwr : w.writable op = true) :
    (csv_to_excel w ip op).1 = true ∧
    test_excel_file (csv_to_excel w ip op).2.1 op =
      (true,
        [.msg "File read successfully!",
         .msg ("Shape: (" ++ decRepr rs.length ++ ", " ++ decRepr (splitFields hd).length ++ ")"),
         .msg "Columns:"]
        ++ (splitFields hd).map (fun col => .msg ("  - " ++ col))
        ++ [.msg "\nFirst 5 rows:",
            .table (splitFields hd) ((rs.map splitFields).take 5)]) := by
  have hparse : read_csv w ip = .ok ⟨splitFields hd, rs.map splitFields⟩ := by
    unfold read_csv
    rw [hf]
    exact read_csv_text_valid hl hnd hwidth
  have hconv := csv_to_excel_ok hparse hwr
  rw [hconv]
  refine ⟨rfl, ?_⟩
  have hre : read_excel
      { w with files := fun q =>
          if q = op then some (.xlsx ⟨splitFields hd, rs.map splitFields⟩) else w.files q } op
      = .ok ⟨splitFields hd, rs.map splitFields⟩ := by
    unfold read_excel
    simp
  rw [test_excel_file_ok hre]
  simp

/-- Claim C4: the converter command line prints a usage message and exits with
code 1 when the argument count is not exactly 2, leaving the filesystem
untouched; with exactly two arguments it runs the conversion and exits with
code 0 exactly when the conversion reports success, propagating the
conversion's filesystem effect and printed output. -/
theorem c4_converter_cli (w : World) (args : List String) :
    (args.length ≠ 2 → converterMain w args =
      (1, w, [.msg "Usage: python csv_to_excel.py <input.csv> <output.xlsx>"])) ∧
    (∀ ip op, converterMain w [ip, op] =
      ((if (csv_to_excel w ip op).1 then 0 else 1),
       (csv_to_excel w ip op).2.1, (csv_to_excel w ip op).2.2)) := by
  constructor
  · intro h
    match args with
    | [] => rfl
    | [a] => rfl
    | [a, b] => exact absurd rfl h
    | a :: b :: c :: rest => rfl
  · intro ip op
    rfl

/-- Claim C7: for every CSV file holding only a header line and no data
lines, the conversion succeeds and the produced workbook, when parsed back,
has shape (0, column_count) where column_count is the number of header
fields. -/
theorem c7_header_only (w : World) (ip op t hd : String)
    (hf : w.files ip = some (.text t))
    (hl : csvLines t = [hd])
    (hwr : w.writable op = true) :
    (csv_to_excel w ip op).1 = true ∧
    ∃ df, read_excel (csv_to_excel w ip op).2.1 op = .ok df ∧
      df.rows.length = 0 ∧ df.columns.length = (splitFields hd).length := by
  have hparse : read_csv w ip = .ok ⟨dedupNames [] (splitFields hd), []⟩ := by
    unfold read_csv
    rw [hf]
    show read_csv_text t = _
    unfold read_csv_text
    rw [hl]
    rfl
  have hconv := csv_to_excel_ok hparse hwr
  rw [hconv]
  refine ⟨rfl, ⟨dedupNames [] (splitFields hd), []⟩, ?_, rfl, dedupNames_length _ _⟩
  unfold read_excel
  simp

/-- Claim C8: for every CSV input that parses, the workbook written by the
converter holds exactly the parsed frame: the parsed column names (which are
unique) in their original order, the rows in their original order, and no
synthetic row-index column prepended. -/
theorem c8_column_row_preservation (w : World) (ip op : String) (df : Frame)
    (hparse : read_csv w ip = .ok df)
    (hwr : w.writable op = true) :
    (csv_to_excel w ip op).1 = true ∧
    ((csv_to_excel w ip op).2.1).files op = some (.xlsx df) ∧
    df.columns.Nodup := by
  obtain ⟨t, hf, ht⟩ := read_csv_ok_text hparse
  have hconv := csv_to_excel_ok hparse hwr
  rw [hconv]
  refine ⟨rfl, by simp, read_csv_text_columns_nodup ht⟩

/-- Claim C10: both operations are deterministic functions of the file
contents at the referenced paths: two filesystems agreeing on the input path,
the output path, and its writability give the same returned flag, the same
printed output, and the same final contents at the output path, and two
filesystems agreeing at an inspected path give identical inspector runs. -/
theorem c10_deterministic (w₁ w₂ : World) (ip op p : String)
    (hin : w₁.files ip = w₂.files ip)
    (hout : w₁.files op = w₂.files op)
    (hwr : w₁.writable op = w₂.writable op)
    (hp : w₁.files p = w₂.files p) :
    (csv_to_excel w₁ ip op).1 = (csv_to_excel w₂ ip op).1 ∧
    (csv_to_excel w₁ ip op).2.2 = (csv_to_excel w₂ ip op).2.2 ∧
    ((csv_to_excel w₁ ip op).2.1).files op = ((csv_to_excel w₂ ip op).2.1).files op ∧
    test_excel_file w₁ p = test_excel_file w₂ p := by
  have hrc : read_csv w₁ ip = read_csv w₂ ip := by
    unfold read_csv
    rw [hin]
  have hre : read_excel w₁ p = read_excel w₂ p := by
    unfold read_excel
    rw [hp]
  have hinsp : test_excel_file w₁ p = test_excel_file w₂ p := by
    unfold test_excel_file
    rw [hre]
  unfold csv_to_excel csvToExcelBody
  rw [hin, hrc]
  cases hf2 : w₂.files ip with
  | none => exact ⟨rfl, rfl, hout, hinsp⟩
  | some d =>
    cases hrc2 : read_csv w₂ ip with
    | error e => exact ⟨rfl, rfl, hout, hinsp⟩
    | ok df =>
      unfold to_excel
      rw [hwr]
      cases hw2 : w₂.writable op with
      | false => exact ⟨rfl, rfl, hout, hinsp⟩
      | true => exact ⟨rfl, rfl, by simp, hinsp⟩

/-- Concrete filesystem exercising the theorems: a two-row CSV, a header-only
CSV, an empty file, a six-row workbook, and one locked path rejecting writes. -/
def fsA : World where
  files := fun p =>
    if p = "data.csv" then some (.text "a,b\n1,2\n3,4\n")
    else if p = "header.csv" then some (.text "id,name,severity")
    else if p = "empty.csv" then some (.text "")
    else if p = "report.xlsx" then
      some (.xlsx ⟨["c1", "c2"],
        [["1", "2"], ["3", "4"], ["5", "6"], ["7", "8"], ["9", "10"], ["11", "12"]]⟩)
    else none
  writable := fun p => p != "locked.xlsx"

/-- A second filesystem agreeing with `fsA` on the paths the determinism
theorem inspects, but differing elsewhere. -/
def fsB : World where
  files := fun p =>
    if p = "data.csv" then some (.text "a,b\n1,2\n3,4\n")
    else if p = "notes.txt" then some (.text "junk")
    else none
  writable := fun _ => true

/-- Witness for claim C1 on a concrete two-row CSV. -/
theorem c1_convert_then_inspect_witness :
    fsA.files "data.csv" = some (.text "a,b\n1,2\n3,4\n") ∧
    csvLines "a,b\n1,2\n3,4\n" = "a,b" :: ["1,2", "3,4"] ∧
    (splitFields "a,b").Nodup ∧
    fsA.writable "out.xlsx" = true ∧
    ((csv_to_excel fsA "data.csv" "out.xlsx").1 = true ∧
      test_excel_file (csv_to_excel fsA "data.csv" "out.xlsx").2.1 "out.xlsx" =
        (true, [.msg "File read successfully!", .msg "Shape: (2, 2)", .msg "Columns:",
                .msg "  - a", .msg "  - b", .msg "\nFirst 5 rows:",
                .table ["a", "b"] [["1", "2"], ["3", "4"]]])) :=
  ⟨by decide, by decide, by decide, by decide,
    c1_convert_then_inspect fsA "data.csv" "out.xlsx" "a,b\n1,2\n3,4\n" "a,b" ["1,2", "3,4"]
      (by decide) (by decide) (by decide) (by decide) (by decide)⟩

/-- Witness for claim C2 on a missing input path. -/
theorem c2_missing_input_witness :
    fsA.files "missing.csv" = none ∧
    (csv_to_excel fsA "missing.csv" "out.xlsx" =
      (false, fsA, [.msg "Error: Input file missing.csv does not exist"]) ∧
     ((csv_to_excel fsA "missing.csv" "out.xlsx").2.1).files "out.xlsx" =
       fsA.files "out.xlsx") :=
  ⟨by decide, c2_missing_input fsA "missing.csv" "out.xlsx" (by decide)⟩

/-- Witness for claim C3 on a write failure (output path rejecting writes). -/
theorem c3_catch_all_witness :
    csvToExcelBody fsA "data.csv" "locked.xlsx" = .error "Permission denied: locked.xlsx" ∧
    csv_to_excel fsA "data.csv" "locked.xlsx" =
      (false, fsA, [.msg "Error converting file: Permission denied: locked.xlsx"]) :=
  ⟨rfl, c3_catch_all fsA "data.csv" "locked.xlsx" "Permission denied: locked.xlsx" rfl⟩

/-- Witness for claim C4: one wrong-argument-count run and one successful run. -/
theorem c4_converter_cli_witness :
    (["only_one_argument"].length ≠ 2 ∧
      converterMain fsA ["only_one_argument"] =
        (1, fsA, [.msg "Usage: python csv_to_excel.py <input.csv> <output.xlsx>"])) ∧
    converterMain fsA ["data.csv", "out.xlsx"] =
      ((if (csv_to_excel fsA "data.csv" "out.xlsx").1 then 0 else 1),
       (csv_to_excel fsA "data.csv" "out.xlsx").2.1,
       (csv_to_excel fsA "data.csv" "out.xlsx").2.2) :=
  ⟨⟨by decide, (c4_converter_cli fsA ["only_one_argument"]).1 (by decide)⟩,
    (c4_converter_cli fsA ["data.csv", "out.xlsx"]).2 "data.csv" "out.xlsx"⟩

/-- Witness for claim C5 on a six-row workbook, so only five rows are shown. -/
theorem c5_inspector_success_witness :
    read_excel fsA "report.xlsx" =
      .ok ⟨["c1", "c2"],
        [["1", "2"], ["3", "4"], ["5", "6"], ["7", "8"], ["9", "10"], ["11", "12"]]⟩ ∧
    test_excel_file fsA "report.xlsx" =
      (true, [.msg "File read successfully!", .msg "Shape: (6, 2)", .msg "Columns:",
              .msg "  - c1", .msg "  - c2", .msg "\nFirst 5 rows:",
              .table ["c1", "c2"]
                [["1", "2"], ["3", "4"], ["5", "6"], ["7", "8"], ["9", "10"]]]) :=
  ⟨rfl,
    c5_inspector_success fsA "report.xlsx"
      ⟨["c1", "c2"],
        [["1", "2"], ["3", "4"], ["5", "6"], ["7", "8"], ["9", "10"], ["11", "12"]]⟩ rfl⟩

/-- Witness for claim C6 on a missing workbook path. -/
theorem c6_inspector_failure_witness :
    read_excel fsA "nofile.xlsx" = .error "No such file or directory: nofile.xlsx" ∧
    (test_excel_file fsA "nofile.xlsx" =
      (false, [.msg "Error reading file: No such file or directory: nofile.xlsx"]) ∧
     inspectorMain fsA ["nofile.xlsx"] =
      (1, [.msg "Error reading file: No such file or directory: nofile.xlsx"])) :=
  ⟨rfl, c6_inspector_failure fsA "nofile.xlsx" "No such file or directory: nofile.xlsx" rfl⟩

/-- Witness for claim C7 on a header-only CSV with three columns. -/
theorem c7_header_only_witness :
    fsA.files "header.csv" = some (.text "id,name,severity") ∧
    csvLines "id,name,severity" = ["id,name,severity"] ∧
    fsA.writable "hdr.xlsx" = true ∧
    ((csv_to_excel fsA "header.csv" "hdr.xlsx").1 = true ∧
      ∃ df, read_excel (csv_to_excel fsA "header.csv" "hdr.xlsx").2.1 "hdr.xlsx" = .ok df ∧
        df.rows.length = 0 ∧ df.columns.length = 3) :=
  ⟨by decide, by decide, by decide,
    c7_header_only fsA "header.csv" "hdr.xlsx" "id,name,severity" "id,name,severity"
      (by decide) (by decide) (by decide)⟩

/-- Witness for claim C8 on the concrete two-row CSV. -/
theorem c8_column_row_preservation_witness :
    read_csv fsA "data.csv" = .ok ⟨["a", "b"], [["1", "2"], ["3", "4"]]⟩ ∧
    fsA.writable "out.xlsx" = true ∧
    ((csv_to_excel fsA "data.csv" "out.xlsx").1 = true ∧
     ((csv_to_excel fsA "data.csv" "out.xlsx").2.1).files "out.xlsx" =
       some (.xlsx ⟨["a", "b"], [["1", "2"], ["3", "4"]]⟩) ∧
     (["a", "b"] : List String).Nodup) :=
  ⟨rfl, by decide,
    c8_column_row_preservation fsA "data.csv" "out.xlsx"
      ⟨["a", "b"], [["1", "2"], ["3", "4"]]⟩ rfl (by decide)⟩

/-- Witness for claim C9 on an existing but empty CSV file. -/
theorem c9_no_write_on_parse_failure_witness :
    fsA.files "empty.csv" = some (.text "") ∧
    read_csv fsA "empty.csv" = .error "No columns to parse from file" ∧
    (csv_to_excel fsA "empty.csv" "out.xlsx" =
      (false, fsA, [.msg "Error converting file: No columns to parse from file"]) ∧
     ((csv_to_excel fsA "empty.csv" "out.xlsx").2.1).files "out.xlsx" =
       fsA.files "out.xlsx") :=
  ⟨by decide, rfl,
    c9_no_write_on_parse_failure fsA "empty.csv" "out.xlsx"
      "No columns to parse from file" (.text "") (by decide) rfl⟩

/-- Witness for claim C10 on two filesystems agreeing at the used paths. -/
theorem c10_deterministic_witness :
    fsA.files "data.csv" = fsB.files "data.csv" ∧
    fsA.files "out.xlsx" = fsB.files "out.xlsx" ∧
    fsA.writable "out.xlsx" = fsB.writable "out.xlsx" ∧
    ((csv_to_excel fsA "data.csv" "out.xlsx").1 = (csv_to_excel fsB "data.csv" "out.xlsx").1 ∧
     (csv_to_excel fsA "data.csv" "out.xlsx").2.2 =
       (csv_to_excel fsB "data.csv" "out.xlsx").2.2 ∧
     ((csv_to_excel fsA "data.csv" "out.xlsx").2.1).files "out.xlsx" =
       ((csv_to_excel fsB "data.csv" "out.xlsx").2.1).files "out.xlsx" ∧
     test_excel_file fsA "data.csv" = test_excel_file fsB "data.csv") :=
  ⟨by decide, by decide, by decide,
    c10_deterministic fsA fsB "data.csv" "out.xlsx" "data.csv"
      (by decide) (by decide) (by decide) (by decide)⟩

end IMS
